import Mathlib

/-!
Verification of the local-scheduler repository against its specification.

The repository has two variants:
* a single-endpoint scheduler (`config.ts` + `scheduler.ts`) that POSTs to
  `/api/scheduler/trigger` with an `X-Scheduler-Secret` header and keeps
  success/failure counters;
* a multi-endpoint scheduler class (`LocalScheduler`) that on each tick POSTs
  sequentially to the queries, cleanups and outputs endpoints with an optional
  bearer token, guarded by a running flag and an interval timer handle.

The embedding below is shallow: environments are functions
`String → Option String`, the outcome of each HTTP interaction is an explicit
parameter (an `Except` value for the fetch and for each body read), JavaScript
exceptions are modelled by `Except JsError`, and the `try`/`catch` structure of
the source is reproduced by explicit matches.  JavaScript numbers that matter
here are integers or NaN, modelled as `Option Int` (`none` = NaN).
-/

deriving instance DecidableEq for Except

namespace LocalSched

/-- A JavaScript runtime exception (opaque payload). -/
inductive JsError : Type where
  | err : String → JsError
deriving DecidableEq, Repr

/-- JavaScript `x || d` for `x : string | undefined`: `undefined` and the
empty string are falsy, any other string is returned unchanged. -/
def jsOrStr : Option String → String → String
  | some s, d => if s = "" then d else s
  | none, d => d

/-- Accumulate leading decimal digits, stopping at the first non-digit
(the tail behaviour of JavaScript `parseInt`). -/
def digitsToNat : List Char → Nat → Nat
  | [], acc => acc
  | c :: cs, acc =>
    if c.isDigit then digitsToNat cs (acc * 10 + (c.toNat - 48)) else acc

/-- Whether the first character is a decimal digit (so `parseInt` yields a
number rather than NaN). -/
def startsWithDigit : List Char → Bool
  | [] => false
  | c :: _ => c.isDigit

/-- Model of JavaScript `parseInt(s, 10)`: skip leading whitespace, read an
optional sign and then the maximal run of leading decimal digits; NaN
(modelled as `none`) when no digit is found. -/
def parseIntJs (s : String) : Option Int :=
  let cs := s.data.dropWhile (fun c => c == ' ' || c == '\t' || c == '\n' || c == '\r')
  match cs with
  | '-' :: rest =>
    if startsWithDigit rest then some (-(digitsToNat rest 0 : Int)) else none
  | '+' :: rest =>
    if startsWithDigit rest then some ((digitsToNat rest 0 : Int)) else none
  | _ =>
    if startsWithDigit cs then some ((digitsToNat cs 0 : Int)) else none

/-! ## `config.ts` -/

/-- `SchedulerConfig` from `config.ts`.  `interval` is the result of
`parseInt` (possibly NaN), `appPort` is `undefined` (`none`) or a parsed
number (possibly NaN, `some none`). -/
structure SchedulerConfig where
  interval : Option Int
  schedulerSecret : String
  appUrl : String
  appPort : Option (Option Int)
deriving DecidableEq, Repr

/-- `loadConfig` from `config.ts`.  `Deno.exit(1)` on a missing or empty
`SCHEDULER_SECRET` is modelled as `Except.error 1` (the process exit code);
no HTTP interaction appears anywhere in this function. -/
def loadConfig (env : String → Option String) : Except Nat SchedulerConfig :=
  let interval := parseIntJs (jsOrStr (env "SCHEDULER_INTERVAL") "30000")
  let schedulerSecret := jsOrStr (env "SCHEDULER_SECRET") ""
  let appUrl := jsOrStr (env "APP_URL") "http://localhost"
  let appPort : Option (Option Int) :=
    match env "APP_PORT" with
    | some s => if s = "" then none else some (parseIntJs s)
    | none => none
  if schedulerSecret = "" then
    Except.error 1
  else
    Except.ok { interval := interval, schedulerSecret := schedulerSecret,
                appUrl := appUrl, appPort := appPort }

/-- `buildEndpointUrl` from `config.ts`.  The source branches on the JavaScript
truthiness of `config.appPort`, so `undefined`, NaN and `0` all leave the
base URL unmodified. -/
def buildEndpointUrl (config : SchedulerConfig) : String :=
  let base :=
    match config.appPort with
    | some (some n) =>
      if n = 0 then config.appUrl else config.appUrl ++ ":" ++ toString n
    | some none => config.appUrl
    | none => config.appUrl
  base ++ "/api/scheduler/trigger"

/-! ## `scheduler.ts` (single-endpoint variant) -/

/-- `lastStatus` values of the statistics block in `scheduler.ts`. -/
inductive TriggerStatus : Type where
  | success : TriggerStatus
  | failed : TriggerStatus
deriving DecidableEq, Repr

/-- The module-level statistics of `scheduler.ts`: `totalTriggers`,
`successfulTriggers`, `failedTriggers`, `lastTriggerTime`, `lastStatus`. -/
structure Stats where
  totalTriggers : Nat
  successfulTriggers : Nat
  failedTriggers : Nat
  lastTriggerTime : Option Nat
  lastStatus : Option TriggerStatus
deriving DecidableEq, Repr

/-- The initial statistics (all counters zero, no attempt recorded yet). -/
def initStats : Stats :=
  { totalTriggers := 0, successfulTriggers := 0, failedTriggers := 0,
    lastTriggerTime := none, lastStatus := none }

/-- An HTTP response as observed by `triggerScheduler`: its status code and the
outcomes of the two possible body reads (`response.json()` for the success
branch, `response.text()` for the failure branch), each of which may itself
throw. -/
structure HttpResponse where
  status : Nat
  jsonBody : Except JsError Unit
  textBody : Except JsError String
deriving DecidableEq, Repr

/-- `Response.ok` of the fetch API: status in the 2xx range. -/
def HttpResponse.respOk (r : HttpResponse) : Bool :=
  200 ≤ r.status && r.status ≤ 299

/-- The environment of one invocation of `triggerScheduler`: the wall-clock
time and the outcome of `fetch` (a response, or a thrown transport error). -/
structure TickEnv where
  now : Nat
  fetchResult : Except JsError HttpResponse
deriving DecidableEq, Repr

/-- The `try` block of `triggerScheduler` (lines 28-57 of `scheduler.ts`),
as a stateful computation that may throw: on a thrown error the statistics
updated so far are kept (they are module-level variables). -/
def tryBody (env : TickEnv) (s : Stats) : Except JsError Unit × Stats :=
  match env.fetchResult with
  | Except.error e => (Except.error e, s)
  | Except.ok response =>
    if response.respOk then
      match response.jsonBody with
      | Except.error e => (Except.error e, s)
      | Except.ok _ =>
        (Except.ok (),
         { s with successfulTriggers := s.successfulTriggers + 1,
                  lastStatus := some TriggerStatus.success })
    else
      let s1 := { s with failedTriggers := s.failedTriggers + 1,
                         lastStatus := some TriggerStatus.failed }
      match response.textBody with
      | Except.error e => (Except.error e, s1)
      | Except.ok _ => (Except.ok (), s1)

/-- The `catch` block of `triggerScheduler` (lines 58-66 of `scheduler.ts`). -/
def catchBlock (s : Stats) : Stats :=
  { s with failedTriggers := s.failedTriggers + 1,
           lastStatus := some TriggerStatus.failed }

/-- `triggerScheduler` from `scheduler.ts` as a statistics transformer: bump
`totalTriggers` and `lastTriggerTime`, run the `try` block, and divert any
thrown error into the `catch` block. -/
def triggerScheduler (env : TickEnv) (s : Stats) : Stats :=
  let s0 := { s with totalTriggers := s.totalTriggers + 1,
                     lastTriggerTime := some env.now }
  match tryBody env s0 with
  | (Except.ok _, s1) => s1
  | (Except.error _, s1) => catchBlock s1

/-- `triggerScheduler` with explicit exception propagation: the result is
`Except.error` exactly when an exception escapes the call. -/
def triggerSchedulerRun (env : TickEnv) (s : Stats) : Except JsError Stats :=
  let s0 := { s with totalTriggers := s.totalTriggers + 1,
                     lastTriggerTime := some env.now }
  match tryBody env s0 with
  | (Except.ok _, s1) => Except.ok s1
  | (Except.error _, s1) => Except.ok (catchBlock s1)

/-- A sequence of completed invocations of `triggerScheduler`. -/
def runTicks (envs : List TickEnv) (s : Stats) : Stats :=
  envs.foldl (fun st e => triggerScheduler e st) s

/-- An attempt whose response is non-2xx and whose `response.text()` read
throws: the `failedTriggers` counter is bumped both in the `else` branch and
again in the `catch` block. -/
def doubleCounted (env : TickEnv) : Bool :=
  match env.fetchResult with
  | Except.error _ => false
  | Except.ok r =>
    !r.respOk &&
      (match r.textBody with
       | Except.error _ => true
       | Except.ok _ => false)

/-- Number of double-counted attempts in a sequence. -/
def doubleCount (envs : List TickEnv) : Nat :=
  (envs.filter doubleCounted).length

/-- The success-rate expression printed by `triggerScheduler`
(line 76 of `scheduler.ts`), in exact rational arithmetic with `toFixed(1)`
modelled as rounding to one decimal place, ties away from zero. -/
def roundTo1 (q : ℚ) : ℚ :=
  (⌊q * 10 + 1 / 2⌋ : ℚ) / 10

/-- The reported success rate: the ternary guard `totalTriggers > 0` from the
source, `0` otherwise. -/
def successRateReported (s : Stats) : ℚ :=
  if s.totalTriggers > 0 then
    roundTo1 (((s.successfulTriggers : ℚ) / (s.totalTriggers : ℚ)) * 100)
  else 0

/-- Modelled from the spec: `round(successfulTriggers / totalTriggers * 100, 1)`
for `totalTriggers > 0`, and `0` when `totalTriggers == 0`. -/
def specSuccessRate (s : Stats) : ℚ :=
  if s.totalTriggers = 0 then 0
  else roundTo1 ((s.successfulTriggers : ℚ) / (s.totalTriggers : ℚ) * 100)

/-! ## `LocalScheduler` (multi-endpoint variant) -/

/-- `SchedulerConfig` of the multi-endpoint scheduler file: target URL, check
interval (result of `parseInt`, possibly NaN) and optional auth token. -/
structure MultiConfig where
  symposiumUrl : String
  checkInterval : Option Int
  authToken : Option String
deriving DecidableEq, Repr

/-- `loadConfig` of the multi-endpoint scheduler file.  `getEnv` (the
process/Deno runtime probe) is abstracted as a single environment lookup. -/
def loadConfigMulti (env : String → Option String) : MultiConfig :=
  { symposiumUrl := jsOrStr (env "SYMPOSIUM_URL") "http://localhost:80",
    checkInterval := parseIntJs (jsOrStr (env "CHECK_INTERVAL_MS") "60000"),
    authToken := env "AUTH_TOKEN" }

/-- A response observed by one of the three trigger helpers: only the status
code matters for control flow before the body read. -/
structure MultiResponse where
  status : Nat
deriving DecidableEq, Repr

/-- `Response.ok`: status in the 2xx range. -/
def MultiResponse.respOk (r : MultiResponse) : Bool :=
  200 ≤ r.status && r.status ≤ 299

/-- The outcome environment of one endpoint call: the `fetch` outcome and the
joint outcome of `response.json()` plus the envelope handling that follows it
(which only writes console output, and may itself throw — e.g. a malformed
body).  Console output is out of scope, so only termination matters. -/
structure EndpointOutcome where
  fetchResult : Except JsError MultiResponse
  bodyResult : Except JsError Unit
deriving DecidableEq, Repr

/-- One outbound HTTP request as recorded in the trace. -/
structure FetchCall where
  url : String
  method : String
  authHeader : Option String
deriving DecidableEq, Repr

/-- The `Authorization` header: set to `Bearer <token>` exactly when
`config.authToken` is truthy (present and non-empty). -/
def bearerHeader (authToken : Option String) : Option String :=
  match authToken with
  | some t => if t = "" then none else some ("Bearer " ++ t)
  | none => none

/-- The `try` block shared (up to endpoint URL and log labels) by
`triggerQueries`, `triggerCleanups` and `triggerOutputs`: build the request,
fetch, return early on a non-2xx status, otherwise read and handle the body.
The emitted HTTP call is recorded in the trace even when `fetch` throws. -/
def triggerEndpointTry (url : String) (authToken : Option String)
    (o : EndpointOutcome) : Except JsError Unit × List FetchCall :=
  let call : FetchCall := { url := url, method := "POST",
                            authHeader := bearerHeader authToken }
  match o.fetchResult with
  | Except.error e => (Except.error e, [call])
  | Except.ok response =>
    if response.respOk then
      match o.bodyResult with
      | Except.error e => (Except.error e, [call])
      | Except.ok _ => (Except.ok (), [call])
    else
      (Except.ok (), [call])

/-- An endpoint trigger helper with its own `catch`: any thrown error is
caught and logged, so the call always completes normally. -/
def triggerEndpointRun (url : String) (authToken : Option String)
    (o : EndpointOutcome) : Except JsError Unit × List FetchCall :=
  match triggerEndpointTry url authToken o with
  | (Except.error _, calls) => (Except.ok (), calls)
  | (Except.ok u, calls) => (Except.ok u, calls)

/-- `LocalScheduler.triggerQueries`. -/
def triggerQueries (cfg : MultiConfig) (o : EndpointOutcome) :
    Except JsError Unit × List FetchCall :=
  triggerEndpointRun (cfg.symposiumUrl ++ "/api/scheduler/trigger")
    cfg.authToken o

/-- `LocalScheduler.triggerCleanups`. -/
def triggerCleanups (cfg : MultiConfig) (o : EndpointOutcome) :
    Except JsError Unit × List FetchCall :=
  triggerEndpointRun (cfg.symposiumUrl ++ "/api/scheduler/trigger-cleanups")
    cfg.authToken o

/-- `LocalScheduler.triggerOutputs`. -/
def triggerOutputs (cfg : MultiConfig) (o : EndpointOutcome) :
    Except JsError Unit × List FetchCall :=
  triggerEndpointRun (cfg.symposiumUrl ++ "/api/scheduler/trigger-outputs")
    cfg.authToken o

/-- `LocalScheduler.triggerCheck`: the three helpers awaited in order; an
exception escaping one of them would abort the rest of the tick (the trace
records whatever was already sent). -/
def triggerCheck (cfg : MultiConfig) (oq oc oo : EndpointOutcome) :
    Except JsError Unit × List FetchCall :=
  match triggerQueries cfg oq with
  | (Except.error e, c1) => (Except.error e, c1)
  | (Except.ok _, c1) =>
    match triggerCleanups cfg oc with
    | (Except.error e, c2) => (Except.error e, c1 ++ c2)
    | (Except.ok _, c2) =>
      match triggerOutputs cfg oo with
      | (r, c3) => (r, c1 ++ c2 ++ c3)

/-- The private fields of a `LocalScheduler` instance: `running` and
`intervalId`. -/
structure SchedulerState where
  running : Bool
  intervalId : Option Nat
deriving DecidableEq, Repr

/-- The state established by the constructor. -/
def initState : SchedulerState :=
  { running := false, intervalId := none }

/-- `LocalScheduler.isRunning`. -/
def isRunning (st : SchedulerState) : Bool :=
  st.running

/-- The runtime world around a scheduler instance: the next fresh timer id,
the set of armed interval timers, and the trace of HTTP calls made so far. -/
structure World where
  nextTimerId : Nat
  activeTimers : List Nat
  calls : List FetchCall
deriving DecidableEq, Repr

/-- A world is well formed when every armed timer id is older than the next
fresh id (which `setInterval` guarantees). -/
def World.wf (w : World) : Prop :=
  ∀ t ∈ w.activeTimers, t < w.nextTimerId

/-- `LocalScheduler.start`: a no-op (logging aside) when already running;
otherwise set the flag, run an immediate check, and arm a fresh interval
timer whose id is stored in `intervalId`. -/
def start (cfg : MultiConfig) (oq oc oo : EndpointOutcome)
    (st : SchedulerState) (w : World) : SchedulerState × World :=
  if st.running then (st, w)
  else
    let w1 := { w with calls := w.calls ++ (triggerCheck cfg oq oc oo).2 }
    ({ running := true, intervalId := some w1.nextTimerId },
     { w1 with nextTimerId := w1.nextTimerId + 1,
               activeTimers := w1.activeTimers ++ [w1.nextTimerId] })

/-- `LocalScheduler.stop`: a no-op when not running; otherwise clear the flag
and, when a timer is armed, cancel it (`clearInterval`) and forget its id. -/
def stop (st : SchedulerState) (w : World) : SchedulerState × World :=
  if st.running then
    match st.intervalId with
    | some tid =>
      ({ running := false, intervalId := none },
       { w with activeTimers := w.activeTimers.erase tid })
    | none => ({ running := false, intervalId := none }, w)
  else (st, w)

/-- A firing of interval timer `tid`: it runs `triggerCheck` of the owning
scheduler only while the timer is armed; a cancelled timer never fires. -/
def timerFire (cfg : MultiConfig) (oq oc oo : EndpointOutcome) (tid : Nat)
    (w : World) : World :=
  if tid ∈ w.activeTimers then
    { w with calls := w.calls ++ (triggerCheck cfg oq oc oo).2 }
  else w

/-- Any number of further firings of timer `tid`, each with its own outcome
environment. -/
def fireMany (cfg : MultiConfig) (tid : Nat) :
    List (EndpointOutcome × EndpointOutcome × EndpointOutcome) → World → World
  | [], w => w
  | o :: os, w => fireMany cfg tid os (timerFire cfg o.1 o.2.1 o.2.2 tid w)

/-- The states reachable from the constructor by completed `start`/`stop`
calls (with arbitrary outcomes and worlds). -/
inductive Reachable : SchedulerState → Prop where
  | init : Reachable initState
  | step_start : ∀ (st : SchedulerState) (cfg : MultiConfig)
      (oq oc oo : EndpointOutcome) (w : World),
      Reachable st → Reachable (start cfg oq oc oo st w).1
  | step_stop : ∀ (st : SchedulerState) (w : World),
      Reachable st → Reachable (stop st w).1

/-! ## Concrete instances used as test inputs -/

/-- A 500 response whose `response.text()` read itself throws. -/
def respTextFail : HttpResponse :=
  { status := 500, jsonBody := Except.ok (),
    textBody := Except.error (JsError.err "body read failed") }

/-- A tick whose response is non-2xx and whose error-body read fails. -/
def envTextFail : TickEnv :=
  { now := 0, fetchResult := Except.ok respTextFail }

/-- A 200 response whose body is not valid JSON (`response.json()` throws). -/
def respBadJson : HttpResponse :=
  { status := 200, jsonBody := Except.error (JsError.err "invalid json"),
    textBody := Except.ok "" }

/-- A tick with a 2xx status but a malformed response body. -/
def envBadJson : TickEnv :=
  { now := 0, fetchResult := Except.ok respBadJson }

/-- A 200 response with a well-formed JSON body. -/
def respOkJson : HttpResponse :=
  { status := 200, jsonBody := Except.ok (), textBody := Except.ok "" }

/-- A fully successful tick. -/
def envOkJson : TickEnv :=
  { now := 0, fetchResult := Except.ok respOkJson }

/-- A configuration whose `appPort` is the (falsy) number `0`. -/
def cfgPortZero : SchedulerConfig :=
  { interval := some 30000, schedulerSecret := "s", appUrl := "http://localhost",
    appPort := some (some 0) }

/-- A configuration with an ordinary nonzero port. -/
def cfgPort3000 : SchedulerConfig :=
  { interval := some 30000, schedulerSecret := "s", appUrl := "http://localhost",
    appPort := some (some 3000) }

/-- An environment where the interval variable is set to the string 0. -/
def envZeroInterval : String → Option String := fun k =>
  if k = "SCHEDULER_INTERVAL" then some "0"
  else if k = "SCHEDULER_SECRET" then some "s" else none

/-- An environment defining only the secret. -/
def envOnlySecret : String → Option String := fun k =>
  if k = "SCHEDULER_SECRET" then some "s" else none

/-- The configuration loaded from `envOnlySecret`. -/
def cfgOnlySecret : SchedulerConfig :=
  { interval := some 30000, schedulerSecret := "s", appUrl := "http://localhost",
    appPort := none }

/-- An environment defining only a nonempty secret string. -/
def envWithSecret : String → Option String := fun k =>
  if k = "SCHEDULER_SECRET" then some "topsecret" else none

/-- A fully successful endpoint-call outcome. -/
def outcomeOk : EndpointOutcome :=
  { fetchResult := Except.ok { status := 200 }, bodyResult := Except.ok () }

/-- A default multi-endpoint configuration. -/
def cfgMulti0 : MultiConfig :=
  { symposiumUrl := "http://localhost:80", checkInterval := some 60000,
    authToken := none }

/-- An initial world: no armed timers, no calls made. -/
def world0 : World :=
  { nextTimerId := 0, activeTimers := [], calls := [] }

/-! ## Helper lemmas -/

/-- Exhaustive per-attempt accounting of `triggerScheduler`: every attempt
bumps `totalTriggers` by one; an attempt that is not double-counted bumps
exactly one of the outcome counters by one; a double-counted attempt (non-2xx
response whose error-body read throws) bumps `failedTriggers` twice. -/
theorem triggerScheduler_step (env : TickEnv) (s : Stats) :
    (triggerScheduler env s).totalTriggers = s.totalTriggers + 1 ∧
    (doubleCounted env = false →
      ((triggerScheduler env s).successfulTriggers = s.successfulTriggers + 1 ∧
       (triggerScheduler env s).failedTriggers = s.failedTriggers) ∨
      ((triggerScheduler env s).successfulTriggers = s.successfulTriggers ∧
       (triggerScheduler env s).failedTriggers = s.failedTriggers + 1)) ∧
    (doubleCounted env = true →
      (triggerScheduler env s).successfulTriggers = s.successfulTriggers ∧
      (triggerScheduler env s).failedTriggers = s.failedTriggers + 2) := by
  cases hf : env.fetchResult with
  | error e =>
    simp [triggerScheduler, tryBody, catchBlock, doubleCounted, hf]
  | ok r =>
    cases hok : r.respOk with
    | true =>
      cases hj : r.jsonBody with
      | error e =>
        simp [triggerScheduler, tryBody, catchBlock, doubleCounted, hf, hok, hj]
      | ok u =>
        simp [triggerScheduler, tryBody, catchBlock, doubleCounted, hf, hok, hj]
    | false =>
      cases ht : r.textBody with
      | error e =>
        simp [triggerScheduler, tryBody, catchBlock, doubleCounted, hf, hok, ht]
      | ok t =>
        simp [triggerScheduler, tryBody, catchBlock, doubleCounted, hf, hok, ht]

/-- Counter accounting over a whole sequence of completed attempts. -/
theorem runTicks_counts (envs : List TickEnv) (s : Stats) :
    (runTicks envs s).totalTriggers = s.totalTriggers + envs.length ∧
    (runTicks envs s).successfulTriggers + (runTicks envs s).failedTriggers
      = s.successfulTriggers + s.failedTriggers + envs.length + doubleCount envs := by
  induction envs generalizing s with
  | nil => simp [runTicks, doubleCount]
  | cons e es ih =>
    have hfold : runTicks (e :: es) s = runTicks es (triggerScheduler e s) := rfl
    obtain ⟨h1, h2, h3⟩ := triggerScheduler_step e s
    obtain ⟨g1, g2⟩ := ih (triggerScheduler e s)
    cases hd : doubleCounted e with
    | false =>
      have hdc : doubleCount (e :: es) = doubleCount es := by
        simp [doubleCount, List.filter_cons, hd]
      rcases h2 hd with ⟨ha, hb⟩ | ⟨ha, hb⟩ <;>
        refine ⟨?_, ?_⟩ <;>
          simp only [hfold, hdc, List.length_cons, g1, g2, h1, ha, hb] <;> omega
    | true =>
      have hdc : doubleCount (e :: es) = doubleCount es + 1 := by
        simp [doubleCount, List.filter_cons, hd]
      obtain ⟨ha, hb⟩ := h3 hd
      refine ⟨?_, ?_⟩ <;>
        simp only [hfold, hdc, List.length_cons, g1, g2, h1, ha, hb] <;> omega

/-! ## Claim theorems -/

/-- C1 is false as stated: for the attempt whose response is non-2xx and whose
error-body read throws, `failedTriggers` is incremented both in the non-2xx
branch and again in the catch block, so after that completed attempt
`totalTriggers` (= 1) differs from `successfulTriggers + failedTriggers`
(= 2). -/
theorem stats_invariant_counterexample :
    (triggerScheduler envTextFail initStats).totalTriggers ≠
      (triggerScheduler envTextFail initStats).successfulTriggers +
        (triggerScheduler envTextFail initStats).failedTriggers := by
  decide

/-- C1 (amended): after every sequence of completed attempts,
`totalTriggers` equals the number of attempts, and
`successfulTriggers + failedTriggers` equals the number of attempts plus the
number of attempts whose non-2xx error-body read itself threw (each of those
is counted twice in `failedTriggers`).  Per attempt: `totalTriggers` always
rises by exactly 1; an attempt without a failing error-body read moves exactly
one outcome counter by exactly 1; an attempt with a failing error-body read
moves `failedTriggers` by 2 and `successfulTriggers` not at all. -/
theorem stats_counting_amended (envs : List TickEnv) (env : TickEnv) (s : Stats) :
    (runTicks envs initStats).totalTriggers = envs.length ∧
    (runTicks envs initStats).successfulTriggers +
        (runTicks envs initStats).failedTriggers
      = envs.length + doubleCount envs ∧
    (triggerScheduler env s).totalTriggers = s.totalTriggers + 1 ∧
    (doubleCounted env = false →
      ((triggerScheduler env s).successfulTriggers = s.successfulTriggers + 1 ∧
       (triggerScheduler env s).failedTriggers = s.failedTriggers) ∨
      ((triggerScheduler env s).successfulTriggers = s.successfulTriggers ∧
       (triggerScheduler env s).failedTriggers = s.failedTriggers + 1)) ∧
    (doubleCounted env = true →
      (triggerScheduler env s).successfulTriggers = s.successfulTriggers ∧
      (triggerScheduler env s).failedTriggers = s.failedTriggers + 2) := by
  obtain ⟨h1, h2⟩ := runTicks_counts envs initStats
  obtain ⟨g1, g2, g3⟩ := triggerScheduler_step env s
  exact ⟨by simpa [initStats] using h1, by simpa [initStats] using h2, g1, g2, g3⟩

/-- Witness for the amended C1 at a concrete double-counted attempt. -/
theorem stats_counting_amended_witness :
    (runTicks [envTextFail] initStats).totalTriggers = [envTextFail].length ∧
    (triggerScheduler envTextFail initStats).successfulTriggers =
      initStats.successfulTriggers ∧
    (triggerScheduler envTextFail initStats).failedTriggers =
      initStats.failedTriggers + 2 :=
  ⟨(stats_counting_amended [envTextFail] envTextFail initStats).1,
   ((stats_counting_amended [envTextFail] envTextFail initStats).2.2.2.2
      (by decide)).1,
   ((stats_counting_amended [envTextFail] envTextFail initStats).2.2.2.2
      (by decide)).2⟩

/-- C2: `triggerScheduler` never lets an exception escape: for every outcome
of the fetch and of either body read, the run with explicit exception
propagation returns normally, with exactly the statistics produced by the
total transformer. -/
theorem triggerScheduler_never_throws (env : TickEnv) (s : Stats) :
    triggerSchedulerRun env s = Except.ok (triggerScheduler env s) := by
  cases h : tryBody env { s with totalTriggers := s.totalTriggers + 1,
                                 lastTriggerTime := some env.now } with
  | mk r s1 => cases r <;> simp [triggerSchedulerRun, triggerScheduler, h]

/-- C4 is false as stated: a 2xx response whose body is not valid JSON is
counted as a failure (the `response.json()` exception reaches the catch
block), not as a success. -/
theorem twoxx_success_counterexample :
    respBadJson.respOk = true ∧
    (triggerScheduler envBadJson initStats).successfulTriggers = 0 ∧
    (triggerScheduler envBadJson initStats).failedTriggers = 1 ∧
    (triggerScheduler envBadJson initStats).lastStatus =
      some TriggerStatus.failed := by
  decide

/-- C4 (amended): a 2xx response whose body parses as JSON is counted as a
success (`successfulTriggers` + 1, `lastStatus = success`, `failedTriggers`
unchanged); a 2xx response whose body read throws is counted as a failure
(`failedTriggers` + 1, `lastStatus = failed`, `successfulTriggers`
unchanged). -/
theorem twoxx_success_amended (env : TickEnv) (r : HttpResponse) (s : Stats)
    (hfetch : env.fetchResult = Except.ok r) (hok : r.respOk = true) :
    (r.jsonBody = Except.ok () →
      (triggerScheduler env s).successfulTriggers = s.successfulTriggers + 1 ∧
      (triggerScheduler env s).failedTriggers = s.failedTriggers ∧
      (triggerScheduler env s).lastStatus = some TriggerStatus.success) ∧
    (∀ e, r.jsonBody = Except.error e →
      (triggerScheduler env s).successfulTriggers = s.successfulTriggers ∧
      (triggerScheduler env s).failedTriggers = s.failedTriggers + 1 ∧
      (triggerScheduler env s).lastStatus = some TriggerStatus.failed) := by
  constructor
  · intro hj
    simp [triggerScheduler, tryBody, hfetch, hok, hj]
  · intro e hj
    simp [triggerScheduler, tryBody, catchBlock, hfetch, hok, hj]

/-- Witness for the amended C4 on concrete 2xx ticks with a well-formed and a
malformed body. -/
theorem twoxx_success_amended_witness :
    (triggerScheduler envOkJson initStats).successfulTriggers =
      initStats.successfulTriggers + 1 ∧
    (triggerScheduler envBadJson initStats).failedTriggers =
      initStats.failedTriggers + 1 :=
  ⟨((twoxx_success_amended envOkJson respOkJson initStats rfl (by decide)).1
      rfl).1,
   ((twoxx_success_amended envBadJson respBadJson initStats rfl (by decide)).2
      (JsError.err "invalid json") rfl).2.1⟩

/-- C3: when `SCHEDULER_SECRET` is unset or empty, `loadConfig` exits the
process with code 1 (nonzero) — the function performs no HTTP interaction, so
the exit happens before any HTTP call; otherwise it returns a configuration
whose `schedulerSecret` is exactly the value of the variable. -/
theorem loadConfig_requires_secret (env : String → Option String) :
    ((env "SCHEDULER_SECRET" = none ∨ env "SCHEDULER_SECRET" = some "") →
      loadConfig env = Except.error 1 ∧ (1 : Nat) ≠ 0) ∧
    (∀ s, env "SCHEDULER_SECRET" = some s → s ≠ "" →
      ∃ c, loadConfig env = Except.ok c ∧ c.schedulerSecret = s) := by
  constructor
  · intro h
    rcases h with h | h <;> simp [loadConfig, jsOrStr, h]
  · intro s hs hne
    refine ⟨{ interval := parseIntJs (jsOrStr (env "SCHEDULER_INTERVAL") "30000"),
              schedulerSecret := s,
              appUrl := jsOrStr (env "APP_URL") "http://localhost",
              appPort := match env "APP_PORT" with
                         | some t => if t = "" then none else some (parseIntJs t)
                         | none => none }, ?_, rfl⟩
    simp [loadConfig, jsOrStr, hs, hne]

/-- Witness for C3: an empty environment is rejected with exit code 1, and an
environment carrying a secret is accepted. -/
theorem loadConfig_requires_secret_witness :
    loadConfig (fun _ => none) = Except.error 1 ∧
    loadConfig envWithSecret ≠ Except.error 1 := by
  constructor
  · exact ((loadConfig_requires_secret (fun _ => none)).1 (Or.inl rfl)).1
  · obtain ⟨c, hc, -⟩ :=
      (loadConfig_requires_secret envWithSecret).2 "topsecret" (by decide)
        (by decide)
    rw [hc]
    simp

/-- C5: the printed success rate equals the spec formula
`round(successfulTriggers / totalTriggers * 100, 1)` whenever
`totalTriggers > 0`, and equals 0 when `totalTriggers = 0`, the guard keeping
the division from ever being evaluated at a zero denominator (modelled in
exact rational arithmetic). -/
theorem successRate_matches_spec (s : Stats) :
    successRateReported s = specSuccessRate s ∧
    (s.totalTriggers = 0 → successRateReported s = 0) := by
  constructor
  · by_cases h : s.totalTriggers = 0
    · simp [successRateReported, specSuccessRate, h]
    · simp [successRateReported, specSuccessRate, h, Nat.pos_of_ne_zero h]
  · intro h
    simp [successRateReported, h]

/-- Witness for C5 at the initial statistics (zero attempts). -/
theorem successRate_matches_spec_witness :
    successRateReported initStats = 0 ∧
    successRateReported initStats = specSuccessRate initStats :=
  ⟨(successRate_matches_spec initStats).2 rfl,
   (successRate_matches_spec initStats).1⟩

/-- C6 is false as stated: `buildEndpointUrl` branches on the JavaScript
truthiness of `appPort`, so a configuration with the present port `0` yields
the base URL unmodified — the returned URL does not contain the port. -/
theorem buildEndpointUrl_counterexample :
    cfgPortZero.appPort = some (some 0) ∧
    buildEndpointUrl cfgPortZero = "http://localhost/api/scheduler/trigger" ∧
    buildEndpointUrl cfgPortZero ≠ "http://localhost:0/api/scheduler/trigger" := by
  decide

/-- C6 (amended): `buildEndpointUrl` returns
`<resolved-base>/api/scheduler/trigger`, where the resolved base is
`appUrl:port` when `appPort` is present and truthy (a number other than 0 and
NaN), and `appUrl` unmodified when `appPort` is absent, NaN, or 0. -/
theorem buildEndpointUrl_amended (c : SchedulerConfig) :
    (∀ n : Int, c.appPort = some (some n) → n ≠ 0 →
      buildEndpointUrl c =
        c.appUrl ++ ":" ++ toString n ++ "/api/scheduler/trigger") ∧
    ((c.appPort = none ∨ c.appPort = some none ∨ c.appPort = some (some 0)) →
      buildEndpointUrl c = c.appUrl ++ "/api/scheduler/trigger") := by
  constructor
  · intro n hp hn
    simp [buildEndpointUrl, hp, hn]
  · intro h
    rcases h with h | h | h <;> simp [buildEndpointUrl, h]

/-- Witness for the amended C6 at a nonzero and at a zero port. -/
theorem buildEndpointUrl_amended_witness :
    buildEndpointUrl cfgPort3000 =
      "http://localhost" ++ ":" ++ toString (3000 : Int) ++
        "/api/scheduler/trigger" ∧
    buildEndpointUrl cfgPortZero =
      "http://localhost" ++ "/api/scheduler/trigger" :=
  ⟨(buildEndpointUrl_amended cfgPort3000).1 3000 rfl (by decide),
   (buildEndpointUrl_amended cfgPortZero).2 (Or.inr (Or.inr rfl))⟩

/-- C9 is false as stated: the loaded interval is whatever `parseInt` returns
and is not validated, so `SCHEDULER_INTERVAL=0` loads the non-positive
interval 0; moreover the multi-endpoint base URL defaults to
`http://localhost:80`, not `http://localhost`. -/
theorem config_defaults_counterexample :
    loadConfig envZeroInterval =
      Except.ok { interval := some 0, schedulerSecret := "s",
                  appUrl := "http://localhost", appPort := none } ∧
    ¬ (0 : Int) > 0 ∧
    (loadConfigMulti (fun _ => none)).symposiumUrl = "http://localhost:80" ∧
    "http://localhost:80" ≠ "http://localhost" := by
  decide

/-- C9 (amended): when the interval variable is absent the loaded interval is
exactly the (positive) default — 30000 in the single-endpoint variant, 60000
in the multi-endpoint variant — and when the base-URL variable is absent the
base URL defaults to `http://localhost` in the single-endpoint variant and to
`http://localhost:80` in the multi-endpoint variant; a present interval
variable is parsed with `parseInt` and not checked for positivity. -/
theorem config_defaults_amended (env : String → Option String) :
    (env "SCHEDULER_INTERVAL" = none →
      ∀ c, loadConfig env = Except.ok c →
        c.interval = some 30000 ∧ (0 : Int) < 30000) ∧
    (env "APP_URL" = none →
      ∀ c, loadConfig env = Except.ok c → c.appUrl = "http://localhost") ∧
    (env "CHECK_INTERVAL_MS" = none →
      (loadConfigMulti env).checkInterval = some 60000 ∧ (0 : Int) < 60000) ∧
    (env "SYMPOSIUM_URL" = none →
      (loadConfigMulti env).symposiumUrl = "http://localhost:80") ∧
    (∀ v, env "SCHEDULER_INTERVAL" = some v → v ≠ "" →
      ∀ c, loadConfig env = Except.ok c → c.interval = parseIntJs v) := by
  refine ⟨?_, ?_, ?_, ?_, ?_⟩
  · intro h c hc
    simp only [loadConfig, jsOrStr, h] at hc
    split at hc
    · exact absurd hc (by simp)
    · injection hc with hc2
      subst hc2
      refine ⟨?_, by decide⟩
      show parseIntJs "30000" = some 30000
      decide
  · intro h c hc
    simp only [loadConfig, jsOrStr, h] at hc
    split at hc
    · exact absurd hc (by simp)
    · injection hc with hc2
      subst hc2
      rfl
  · intro h
    refine ⟨?_, by decide⟩
    simp [loadConfigMulti, jsOrStr, h]
    decide
  · intro h
    simp [loadConfigMulti, jsOrStr, h]
  · intro v hv hne c hc
    simp only [loadConfig, jsOrStr, hv, hne, if_neg hne] at hc
    split at hc
    · exact absurd hc (by simp)
    · injection hc with hc2
      subst hc2
      rfl

/-- Witness for the amended C9 at concrete environments. -/
theorem config_defaults_amended_witness :
    cfgOnlySecret.interval = some 30000 ∧
    (loadConfigMulti (fun _ => none)).checkInterval = some 60000 :=
  ⟨((config_defaults_amended envOnlySecret).1 (by decide) cfgOnlySecret
      (by decide)).1,
   ((config_defaults_amended (fun _ => none)).2.2.1 rfl).1⟩

/-- Each endpoint trigger helper completes normally for every outcome and
emits exactly one POST to its URL. -/
theorem triggerEndpointRun_eq (url : String) (authToken : Option String)
    (o : EndpointOutcome) :
    triggerEndpointRun url authToken o =
      (Except.ok (),
       [{ url := url, method := "POST", authHeader := bearerHeader authToken }]) := by
  cases hf : o.fetchResult with
  | error e => simp [triggerEndpointRun, triggerEndpointTry, hf]
  | ok r =>
    cases hok : r.respOk with
    | false => simp [triggerEndpointRun, triggerEndpointTry, hf, hok]
    | true =>
      cases hb : o.bodyResult with
      | error e => simp [triggerEndpointRun, triggerEndpointTry, hf, hok, hb]
      | ok u => simp [triggerEndpointRun, triggerEndpointTry, hf, hok, hb]

/-- C7: every tick of the multi-endpoint scheduler completes normally and
performs exactly three sequential POSTs, in the deterministic order queries,
cleanups, outputs — for every outcome (thrown fetch, non-2xx status, malformed
body) of each of the three calls, since each call carries its own catch. -/
theorem triggerCheck_three_posts (cfg : MultiConfig)
    (oq oc oo : EndpointOutcome) :
    triggerCheck cfg oq oc oo =
      (Except.ok (),
       [{ url := cfg.symposiumUrl ++ "/api/scheduler/trigger",
          method := "POST", authHeader := bearerHeader cfg.authToken },
        { url := cfg.symposiumUrl ++ "/api/scheduler/trigger-cleanups",
          method := "POST", authHeader := bearerHeader cfg.authToken },
        { url := cfg.symposiumUrl ++ "/api/scheduler/trigger-outputs",
          method := "POST", authHeader := bearerHeader cfg.authToken }]) := by
  simp [triggerCheck, triggerQueries, triggerCleanups, triggerOutputs,
        triggerEndpointRun_eq]

/-- A cancelled timer id never adds calls, however often the runtime tries to
fire it. -/
theorem fireMany_cancelled (cfg : MultiConfig) (tid : Nat)
    (outs : List (EndpointOutcome × EndpointOutcome × EndpointOutcome))
    (w : World) (h : tid ∉ w.activeTimers) :
    fireMany cfg tid outs w = w := by
  induction outs with
  | nil => rfl
  | cons o os ih => simp [fireMany, timerFire, h, ih]

/-- C8: `start` on a running scheduler is a no-op (state, timer handle and
timer schedule unchanged); `stop` on a stopped scheduler is a no-op; and
`stop` after `start` clears the running flag, forgets the timer handle and
cancels the armed timer, so that the timer created by `start` can never fire
again — no further HTTP calls happen after `stop` returns. -/
theorem scheduler_state_machine (cfg : MultiConfig)
    (oq oc oo : EndpointOutcome) (st : SchedulerState) (w : World) :
    (st.running = true → start cfg oq oc oo st w = (st, w)) ∧
    (st.running = false → stop st w = (st, w)) ∧
    (st.running = false → w.wf →
      (start cfg oq oc oo st w).1.intervalId = some w.nextTimerId ∧
      (stop (start cfg oq oc oo st w).1
        (start cfg oq oc oo st w).2).1.running = false ∧
      (stop (start cfg oq oc oo st w).1
        (start cfg oq oc oo st w).2).1.intervalId = none ∧
      w.nextTimerId ∉
        (stop (start cfg oq oc oo st w).1
          (start cfg oq oc oo st w).2).2.activeTimers ∧
      (∀ (cfg2 : MultiConfig)
          (outs : List (EndpointOutcome × EndpointOutcome × EndpointOutcome)),
        fireMany cfg2 w.nextTimerId outs
            (stop (start cfg oq oc oo st w).1
              (start cfg oq oc oo st w).2).2 =
          (stop (start cfg oq oc oo st w).1
            (start cfg oq oc oo st w).2).2)) := by
  refine ⟨?_, ?_, ?_⟩
  · intro h
    simp [start, h]
  · intro h
    simp [stop, h]
  · intro h hwf
    have hnot : w.nextTimerId ∉ w.activeTimers := by
      intro hm
      exact absurd (hwf _ hm) (lt_irrefl _)
    have hstart : start cfg oq oc oo st w =
        ({ running := true, intervalId := some w.nextTimerId },
         { nextTimerId := w.nextTimerId + 1,
           activeTimers := w.activeTimers ++ [w.nextTimerId],
           calls := w.calls ++ (triggerCheck cfg oq oc oo).2 }) := by
      simp [start, h]
    have herase :
        (w.activeTimers ++ [w.nextTimerId]).erase w.nextTimerId =
          w.activeTimers := by
      rw [List.erase_append_right _ hnot, List.erase_cons_head,
          List.append_nil]
    have hstop : stop { running := true, intervalId := some w.nextTimerId }
        { nextTimerId := w.nextTimerId + 1,
          activeTimers := w.activeTimers ++ [w.nextTimerId],
          calls := w.calls ++ (triggerCheck cfg oq oc oo).2 } =
        ({ running := false, intervalId := none },
         { nextTimerId := w.nextTimerId + 1,
           activeTimers := w.activeTimers,
           calls := w.calls ++ (triggerCheck cfg oq oc oo).2 }) := by
      simp [stop, herase]
    rw [hstart]
    simp only []
    rw [hstop]
    refine ⟨by trivial, by trivial, by trivial, hnot, ?_⟩
    intro cfg2 outs
    exact fireMany_cancelled cfg2 w.nextTimerId outs _ hnot

/-- Witness for C8: double-stop is a no-op from the initial state, and the
stop-after-start run ends with the running flag cleared. -/
theorem scheduler_state_machine_witness :
    stop initState world0 = (initState, world0) ∧
    (stop (start cfgMulti0 outcomeOk outcomeOk outcomeOk initState world0).1
        (start cfgMulti0 outcomeOk outcomeOk outcomeOk initState
          world0).2).1.running = false :=
  ⟨(scheduler_state_machine cfgMulti0 outcomeOk outcomeOk outcomeOk initState
      world0).2.1 rfl,
   ((scheduler_state_machine cfgMulti0 outcomeOk outcomeOk outcomeOk initState
      world0).2.2 rfl (by intro t ht; simp [world0] at ht)).2.1⟩

/-- C10: in every state reachable from the constructor by completed `start`
and `stop` calls, the running flag is set exactly when the interval-timer
handle is defined, and `isRunning` returns exactly the running flag. -/
theorem running_iff_intervalId (st : SchedulerState) (h : Reachable st) :
    (st.running = true ↔ st.intervalId.isSome = true) ∧
    isRunning st = st.running := by
  refine ⟨?_, rfl⟩
  induction h with
  | init => simp [initState]
  | step_start st1 cfg oq oc oo w hr ih =>
    cases hrun : st1.running with
    | true => simpa [start, hrun] using ih
    | false => simp [start, hrun]
  | step_stop st1 w hr ih =>
    cases hrun : st1.running with
    | true => cases hi : st1.intervalId <;> simp [stop, hrun, hi]
    | false => simpa [stop, hrun] using ih

/-- Witness for C10 at the constructor state. -/
theorem running_iff_intervalId_witness :
    ((initState.running = true ↔ initState.intervalId.isSome = true) ∧
      isRunning initState = initState.running) :=
  running_iff_intervalId initState Reachable.init

end LocalSched
